import Mathlib

/-!
Verification of the chat server's conversation orchestration and streaming
layer (message normalization, model selection, execution graph, SSE event
encoding), shallowly embedded from the Python sources under `src/server/src`.
-/

namespace ChatServer

/-- Values of the JSON payloads handled by the streaming formatter: the shapes
Python's `json.dumps` receives from `SSEFormatter` (strings for token/error
payloads, dictionaries for metadata payloads). -/
inductive Json where
  | null : Json
  | bool (b : Bool) : Json
  | int (n : Int) : Json
  | str (s : String) : Json
  | arr (elems : List Json) : Json
  | obj (entries : List (String × Json)) : Json

/-- One lowercase hexadecimal digit, as produced by Python's `"%04x"`. -/
def hexDigit (n : Nat) : Char :=
  if n < 10 then Char.ofNat (48 + n) else Char.ofNat (87 + n)

/-- Four-digit lowercase hexadecimal rendering of `n`, as in `\uXXXX`. -/
def hex4 (n : Nat) : String :=
  String.mk [hexDigit (n / 4096 % 16), hexDigit (n / 256 % 16),
             hexDigit (n / 16 % 16), hexDigit (n % 16)]

/-- Escape of a single character under Python's default (`ensure_ascii=True`)
JSON string encoder: printable ASCII other than quote and backslash is kept,
the named control escapes are used, every other character becomes `\uXXXX`
(surrogate pairs beyond the BMP). -/
def escapeChar (c : Char) : String :=
  if c = '"' then "\\\""
  else if c = '\\' then "\\\\"
  else if c = '\x08' then "\\b"
  else if c = '\x0c' then "\\f"
  else if c = '\n' then "\\n"
  else if c = '\x0d' then "\\r"
  else if c = '\t' then "\\t"
  else if c.toNat < 0x20 then "\\u" ++ hex4 c.toNat
  else if c.toNat ≤ 0x7e then String.singleton c
  else if c.toNat < 0x10000 then "\\u" ++ hex4 c.toNat
  else
    let v := c.toNat - 0x10000
    "\\u" ++ hex4 (0xd800 + v / 0x400) ++ "\\u" ++ hex4 (0xdc00 + v % 0x400)

/-- Embedding of Python's JSON rendering of a string literal. -/
def pyJsonStr (s : String) : String :=
  "\"" ++ String.join (s.data.map escapeChar) ++ "\""

mutual

/-- Embedding of Python `json.dumps` with its default options
(`ensure_ascii=True`, item separator `", "`, key separator `": "`). -/
def dumps : Json → String
  | .null => "null"
  | .bool true => "true"
  | .bool false => "false"
  | .int n => toString n
  | .str s => pyJsonStr s
  | .arr l => "[" ++ dumpsList l ++ "]"
  | .obj l => "\x7b" ++ dumpsObj l ++ "\x7d"

/-- Comma-separated rendering of a JSON array body. -/
def dumpsList : List Json → String
  | [] => ""
  | [x] => dumps x
  | x :: y :: xs => dumps x ++ ", " ++ dumpsList (y :: xs)

/-- Comma-separated rendering of a JSON object body. -/
def dumpsObj : List (String × Json) → String
  | [] => ""
  | [(k, v)] => pyJsonStr k ++ ": " ++ dumps v
  | (k, v) :: y :: xs => pyJsonStr k ++ ": " ++ dumps v ++ ", " ++ dumpsObj (y :: xs)

end

/-- Enum `StreamEventType` from `utils/streaming.py`. -/
inductive StreamEventType where
  | token
  | error
  | done
  | metadata
deriving DecidableEq

/-- String value of each `StreamEventType` member (the enum is string-valued). -/
def StreamEventType.val : StreamEventType → String
  | .token => "token"
  | .error => "error"
  | .done => "done"
  | .metadata => "metadata"

namespace SSEFormatter

/-- Embedding of `SSEFormatter.format_event` from `utils/streaming.py`: the
`DONE` sentinel is checked first, then an absent payload yields the empty
string, otherwise the tagged payload is JSON-encoded on a `data:` line
terminated by a blank line. -/
def format_event (event_type : StreamEventType) (data : Option Json) : String :=
  if event_type = .done then "data: [DONE]\n\n"
  else
    match data with
    | none => ""
    | some d => "data: " ++ dumps (.obj [(event_type.val, d)]) ++ "\n\n"

/-- Embedding of `SSEFormatter.format_token`. -/
def format_token (token : String) : String :=
  format_event .token (some (.str token))

/-- Embedding of `SSEFormatter.format_error`. -/
def format_error (error_message : String) : String :=
  format_event .error (some (.str error_message))

/-- Embedding of `SSEFormatter.format_done`. -/
def format_done : String :=
  format_event .done none

/-- Embedding of `SSEFormatter.format_metadata` (the payload is a dict in the
source; here any JSON value standing for one). -/
def format_metadata (metadata : Json) : String :=
  format_event .metadata (some metadata)

end SSEFormatter

/-- Typed stream events (the spec's Stream Event tagged variant), matching the
four formatter entry points in `utils/streaming.py`. -/
inductive StreamEvent where
  | token (text : String)
  | error (message : String)
  | done
  | metadata (payload : Json)

/-- Wire encoding of one stream event by the matching `SSEFormatter` call. -/
def encodeEvent : StreamEvent → String
  | .token t => SSEFormatter.format_token t
  | .error m => SSEFormatter.format_error m
  | .done => SSEFormatter.format_done
  | .metadata p => SSEFormatter.format_metadata p

/-- Recognizer for Token events. -/
def StreamEvent.isToken : StreamEvent → Bool
  | .token _ => true
  | _ => false

/-- Recognizer for Error events. -/
def StreamEvent.isError : StreamEvent → Bool
  | .error _ => true
  | _ => false

/-- Recognizer for the Done event. -/
def StreamEvent.isDone : StreamEvent → Bool
  | .done => true
  | _ => false

/-- Modelled from the spec: outcome of the underlying token producer
(`chat_controller.chat_stream`, called by the router but absent from the
sources). Per spec 4.4 the producer yields a finite sequence of content
fragments in emission order and either completes normally or raises
(resolution error before the first fragment, invocation error at any point);
an outcome records the fragments produced before completion, or before the
raised error's message. -/
inductive TokenProduction where
  | success (tokens : List String)
  | failure (tokens : List String) (message : String)

/-- Embedding of the async generator `generate` in `api/routers/chat.py`
(lines 47-59), abstracted to the sequence of typed events it yields: each
produced token is yielded as a Token event; when the producer completes
normally, one Done event follows; when the producer raises, the `except`
handler yields one Error event carrying `str(e)` and the generator ends. -/
def generateEvents : TokenProduction → List StreamEvent
  | .success ts => ts.map StreamEvent.token ++ [.done]
  | .failure ts e => ts.map StreamEvent.token ++ [.error e]

/-- Wire chunks yielded by `generate`: the encodings of its events. -/
def generateChunks (p : TokenProduction) : List String :=
  (generateEvents p).map encodeEvent

/-- Providers whose credentials `_setup_api_keys` knows how to configure. -/
def knownProviders : List String := ["anthropic", "openai", "google"]

/-- Modelled from the spec: model resolution (spec 4.2; the resolver behind
`init_chat_model` is an external collaborator and `chat_stream` is absent from
the sources). The identifier must contain a colon separating a recognized
provider from the model name; otherwise resolution fails, and the result is
`some` of the raised error's message (`none` means success). -/
def resolve_model (modelId : String) : Option String :=
  if ¬ (modelId.data.contains ':') then
    some ("Unable to infer model provider for model=" ++ modelId)
  else if String.mk (modelId.data.takeWhile (fun c => c ≠ ':')) ∈ knownProviders then
    none
  else
    some ("Unsupported provider: " ++ String.mk (modelId.data.takeWhile (fun c => c ≠ ':')))

/-- Modelled from the spec: the streaming producer resolves the model before
yielding any fragment (spec 4.2 and 4.4), so a resolution failure raises
before the first fragment, and a backend outcome is reached only after
successful resolution. -/
def chat_stream_production (modelId : String) (backend : TokenProduction) :
    TokenProduction :=
  match resolve_model modelId with
  | some e => .failure [] e
  | none => backend

/-- Dynamic message accepted by `_convert_messages`: either an object exposing
`role`/`content` attributes (a pydantic `Message`) or a mapping queried with
`dict.get`, which returns `None` for a missing key. -/
inductive PyMsg where
  | obj (role content : String)
  | dict (role content : Option String)
deriving DecidableEq

/-- Role lookup in `_convert_messages` (line 61): attribute access when
`hasattr` holds, `dict.get` otherwise. -/
def getRole : PyMsg → Option String
  | .obj r _ => some r
  | .dict r _ => r

/-- Content lookup in `_convert_messages` (line 62). -/
def getContent : PyMsg → Option String
  | .obj _ c => some c
  | .dict _ c => c

/-- Per-message conversion inside `ChatController._convert_messages` (lines
59-73): the role is compared against "user", "assistant" and "system", and
anything else (a missing role included) defaults to "user"; the content is
passed through unmodified. -/
def convertOne (m : PyMsg) : String × Option String :=
  if getRole m = some "user" then ("user", getContent m)
  else if getRole m = some "assistant" then ("assistant", getContent m)
  else if getRole m = some "system" then ("system", getContent m)
  else ("user", getContent m)

/-- Embedding of `ChatController._convert_messages` (lines 48-75). -/
def convert_messages (messages : List PyMsg) : List (String × Option String) :=
  messages.map convertOne

/-- LangChain-style message held in the graph state: a role tag and a content
that may be `None` when a malformed mapping was converted. -/
structure LCMessage where
  role : String
  content : Option String
deriving DecidableEq

/-- Modelled collaborator: LangGraph's `add_messages` reducer, which appends
the update to the accumulated list (messages built by this service carry no
explicit ids, so the id-matching overwrite path never fires). -/
def add_messages (left right : List LCMessage) : List LCMessage :=
  left ++ right

/-- Pydantic `Message` from `models/chat.py`, also the shape of a model
handle's response: a chat model's `invoke` returns one message whose content
is a string (spec 4.3). -/
structure Message where
  role : String
  content : String
deriving DecidableEq

/-- Injection of a model response into the graph's message list. -/
def toLC (m : Message) : LCMessage := ⟨m.role, some m.content⟩

/-- Graph built through `StateGraph`: named nodes mapping the current message
list to an update list (merged by `add_messages`), and directed edges. -/
structure GraphDef where
  nodes : List (String × (List LCMessage → List LCMessage))
  edges : List (String × String)

/-- Reserved entry node name of LangGraph. -/
def STARTNODE : String := "__start__"

/-- Reserved exit node name of LangGraph. -/
def ENDNODE : String := "__end__"

/-- Lookup of a node's update function by name. -/
def findNode (g : GraphDef) (name : String) :
    Option (List LCMessage → List LCMessage) :=
  (g.nodes.find? (fun p => p.1 == name)).map Prod.snd

/-- Lookup of the outgoing edge of a node. -/
def nextNode (g : GraphDef) (name : String) : Option String :=
  (g.edges.find? (fun p => p.1 == name)).map Prod.snd

/-- Modelled collaborator: execution of a compiled linear LangGraph graph.
Starting at the entry node, each visited node's update is merged into the
state by the `add_messages` reducer and the unique outgoing edge is followed,
until the exit node returns the accumulated state; the fuel bounds the walk
(`none` models a stuck or non-terminating execution). -/
def runGraph (g : GraphDef) : Nat → String → List LCMessage →
    Option (List LCMessage)
  | 0, _, _ => none
  | fuel + 1, current, msgs =>
    if current = ENDNODE then some msgs
    else
      let next :=
        if current = STARTNODE then some msgs
        else (findNode g current).map (fun f => add_messages msgs (f msgs))
      match next, nextNode g current with
      | some m, some nxt => runGraph g fuel nxt m
      | _, _ => none

/-- Invocation of a compiled graph on an initial message list. -/
def GraphDef.invoke (g : GraphDef) (input : List LCMessage) :
    Option (List LCMessage) :=
  runGraph g (g.edges.length + 1) STARTNODE input

/-- Configured defaults held by a `ChatController` instance
(`settings.langgraph.default_model` and `settings.langgraph.temperature`).
The Python float temperature is modelled by a rational: the code only tests
it against `None` and passes it through, never computes with it. -/
structure Controller where
  default_model : String
  default_temperature : ℚ

namespace ChatController

/-- Embedding of `ChatController._build_graph` (lines 90-116): one `chatbot`
node that invokes the bound LLM on the accumulated messages and contributes
the single resulting message, wired entry → `chatbot` → exit. -/
def build_graph (llm : List LCMessage → Message) : GraphDef :=
  ⟨[("chatbot", fun state => [toLC (llm state)])],
   [(STARTNODE, "chatbot"), ("chatbot", ENDNODE)]⟩

/-- Embedding of `used_model = model or self.default_model` (line 136):
Python `or` falls back when the optional string is `None` or falsy (the empty
string). -/
def used_model (c : Controller) (model : Option String) : String :=
  match model with
  | none => c.default_model
  | some s => if s = "" then c.default_model else s

/-- Embedding of `temperature if temperature is not None else
self.default_temperature` (lines 137-139): only `None` triggers the
fallback. -/
def used_temperature (c : Controller) (temperature : Option ℚ) : ℚ :=
  match temperature with
  | none => c.default_temperature
  | some t => t

/-- Coercion of a converted `(role, content)` tuple into a graph message
(LangGraph coerces such tuples to chat messages of the given role). -/
def tupleToLC (p : String × Option String) : LCMessage := ⟨p.1, p.2⟩

/-- Result dict of `ChatController.chat` (lines 156-159). -/
structure ChatResult where
  message : Option String
  model : String
deriving DecidableEq

/-- Embedding of `ChatController.chat` (lines 118-159). `llmOf` stands for
the external `init_chat_model` collaborator: per model identifier and
temperature it yields the model handle that the graph's `chatbot` node
invokes. The result is `none` where Python would raise (a stuck graph run or
an empty result history). -/
def chat (c : Controller) (messages : List PyMsg) (model : Option String)
    (temperature : Option ℚ)
    (llmOf : String → ℚ → (List LCMessage → Message)) : Option ChatResult :=
  let um := used_model c model
  let ut := used_temperature c temperature
  let converted := convert_messages messages
  let llm := llmOf um ut
  let graph := build_graph llm
  match graph.invoke (converted.map tupleToLC) with
  | none => none
  | some result =>
    match result.getLast? with
    | none => none
    | some last => some ⟨last.content, um⟩

end ChatController

/-- Request body of the chat route (`models/chat.py`): the full message
history plus optional model identifier and temperature. -/
structure ChatRequest where
  messages : List Message
  model : Option String
  temperature : Option ℚ

/-- Response body of the single-shot chat route (`models/chat.py`). -/
structure ChatResponse where
  message : String
  model : String
deriving DecidableEq

/-- HTTP outcome of the single-shot chat route: a 200 JSON body, or a 500
with a detail string. -/
inductive HttpResult where
  | ok (body : ChatResponse)
  | internalError (detail : String)
deriving DecidableEq

/-- Modelled from the spec: the single-shot chat route (spec section 6 gives
`POST <chat-prefix>/` returning `200` with `{message, model}`; the sources
register only the streaming handler). It calls `ChatController.chat` on the
request body and returns the result as a 200 response; a raised error, or a
`None` message that cannot validate into the response model, becomes a 500
internal failure. -/
def chat_endpoint (c : Controller) (req : ChatRequest)
    (llmOf : String → ℚ → (List LCMessage → Message)) : HttpResult :=
  match ChatController.chat c
      (req.messages.map (fun m => PyMsg.obj m.role m.content))
      req.model req.temperature llmOf with
  | none => HttpResult.internalError "Internal server error"
  | some r =>
    match r.message with
    | none => HttpResult.internalError "Internal server error"
    | some s => HttpResult.ok ⟨s, r.model⟩

/-- Sample model-handle factory standing for `init_chat_model` in concrete
instances: every resolved handle replies with a fixed assistant message. -/
def sampleLLM : String → ℚ → (List LCMessage → Message) :=
  fun _ _ _ => ⟨"assistant", "Hello there"⟩

/-- Sample configured defaults for concrete instances. -/
def sampleController : Controller := ⟨"anthropic:claude-sonnet-4-5", 7/10⟩

/-!
Helper lemmas shared by the claim theorems.
-/

/-- Run of the compiled graph of `_build_graph`: the input history with the
single model response appended. -/
theorem invoke_build_graph (llm : List LCMessage → Message)
    (input : List LCMessage) :
    (ChatController.build_graph llm).invoke input =
      some (input ++ [toLC (llm input)]) := rfl

/-- Unfolding of the embedded `ChatController.chat`: the call returns the
resolved handle's response content together with the model identifier it
used. -/
theorem chat_eq (c : Controller) (msgs : List PyMsg) (model : Option String)
    (temp : Option ℚ) (llmOf : String → ℚ → (List LCMessage → Message)) :
    ChatController.chat c msgs model temp llmOf =
      some ⟨some ((llmOf (ChatController.used_model c model)
          (ChatController.used_temperature c temp)
          ((convert_messages msgs).map ChatController.tupleToLC)).content),
        ChatController.used_model c model⟩ := by
  simp [ChatController.chat, invoke_build_graph, List.getLast?_concat, toLC]

/-- Token events never satisfy the Done recognizer. -/
theorem countP_isDone_tokens (ts : List String) :
    ((ts.map StreamEvent.token).countP StreamEvent.isDone) = 0 := by
  rw [List.countP_map]
  exact List.countP_eq_zero.mpr (fun a _ => by simp [Function.comp, StreamEvent.isDone])

/-- Token events never satisfy the Error recognizer. -/
theorem countP_isError_tokens (ts : List String) :
    ((ts.map StreamEvent.token).countP StreamEvent.isError) = 0 := by
  rw [List.countP_map]
  exact List.countP_eq_zero.mpr (fun a _ => by simp [Function.comp, StreamEvent.isError])

/-- Converted roles always land in the closed role set. -/
theorem convertOne_fst_mem (m : PyMsg) :
    (convertOne m).1 = "user" ∨ (convertOne m).1 = "assistant" ∨
      (convertOne m).1 = "system" := by
  unfold convertOne
  split_ifs <;> simp

/-- C1 (as stated, refuted): the claim says every streaming invocation's event
sequence ends in a Done sentinel even when token production raises; but when
the producer raises before any token, `generate` yields a single Error event
and ends without Done. -/
theorem c1_counterexample :
    (generateEvents (.failure ["Hel"] "boom")).getLast? ≠ some StreamEvent.done := by
  simp [generateEvents]

/-- C1 (amended): every streaming invocation produces a finite nonempty event
sequence; when token production completes successfully the final element is
the unique Done event with nothing after it, and when it raises at any point
the final element is the unique Error event, with no Done emitted at all. -/
theorem c1_stream_termination (p : TokenProduction) :
    generateEvents p ≠ [] ∧
    (∀ ts, p = .success ts →
      (generateEvents p).getLast? = some .done ∧
      (generateEvents p).countP StreamEvent.isDone = 1) ∧
    (∀ ts e, p = .failure ts e →
      (generateEvents p).getLast? = some (.error e) ∧
      (generateEvents p).countP StreamEvent.isDone = 0 ∧
      (generateEvents p).countP StreamEvent.isError = 1) := by
  refine ⟨?_, ?_, ?_⟩
  · cases p <;> simp [generateEvents]
  · rintro ts rfl
    refine ⟨List.getLast?_concat _, ?_⟩
    rw [generateEvents, List.countP_append, countP_isDone_tokens]
    rfl
  · rintro ts e rfl
    refine ⟨List.getLast?_concat _, ?_, ?_⟩
    · rw [generateEvents, List.countP_append, countP_isDone_tokens]
      rfl
    · rw [generateEvents, List.countP_append, countP_isError_tokens]
      rfl

/-- Witness for C1: concrete success and failure streams. -/
theorem c1_witness :
    (generateEvents (.success ["Hi"])).getLast? = some StreamEvent.done ∧
    (generateEvents (.failure ["Hi"] "boom")).getLast? =
      some (StreamEvent.error "boom") :=
  ⟨((c1_stream_termination _).2.1 ["Hi"] rfl).1,
   ((c1_stream_termination _).2.2 ["Hi"] "boom" rfl).1⟩

/-- C2 (as stated, refuted): for a malformed model identifier the claim says
the Error event is followed by a Done event; but the stream ends at the Error
event and no Done is emitted. -/
theorem c2_counterexample :
    (generateEvents (chat_stream_production "nocolon" (.success ["Hi"]))).getLast? ≠
      some StreamEvent.done := by
  have h : chat_stream_production "nocolon" (.success ["Hi"]) =
      .failure [] "Unable to infer model provider for model=nocolon" := by
    simp [chat_stream_production,
      show resolve_model "nocolon" =
        some "Unable to infer model provider for model=nocolon" by decide]
  rw [h]
  simp [generateEvents]

/-- C2 (amended): for every streaming request whose model identifier is
malformed (no colon) or names an unknown provider, the emitted event sequence
is exactly one Error event carrying the error's message — its final event —
with zero Token events and no Done event. -/
theorem c2_resolution_failure_stream (modelId : String) (backend : TokenProduction)
    (e : String) (h : resolve_model modelId = some e) :
    generateEvents (chat_stream_production modelId backend) = [.error e] ∧
    (generateEvents (chat_stream_production modelId backend)).countP
      StreamEvent.isError = 1 ∧
    (generateEvents (chat_stream_production modelId backend)).countP
      StreamEvent.isToken = 0 ∧
    (generateEvents (chat_stream_production modelId backend)).countP
      StreamEvent.isDone = 0 ∧
    (generateEvents (chat_stream_production modelId backend)).getLast? =
      some (.error e) := by
  have hp : chat_stream_production modelId backend = .failure [] e := by
    simp [chat_stream_production, h]
  rw [hp]
  exact ⟨rfl, rfl, rfl, rfl, rfl⟩

/-- Witness for C2: an identifier with no colon. -/
theorem c2_witness :
    generateEvents (chat_stream_production "nocolon" (.success ["Hi"])) =
      [.error "Unable to infer model provider for model=nocolon"] :=
  (c2_resolution_failure_stream "nocolon" (.success ["Hi"]) _ (by decide)).1

/-- C3 (confirmed): message conversion keeps roles from the closed set
user/assistant/system, sends every other role (a missing one included) to
user without failing, passes the content through unchanged, and is idempotent
on valid roles. -/
theorem c3_role_normalization (m : PyMsg) :
    (convertOne m).2 = getContent m ∧
    (∀ r, getRole m = some r → (r = "user" ∨ r = "assistant" ∨ r = "system") →
      (convertOne m).1 = r) ∧
    (∀ r, getRole m = some r → ¬ (r = "user" ∨ r = "assistant" ∨ r = "system") →
      (convertOne m).1 = "user") ∧
    (getRole m = none → (convertOne m).1 = "user") ∧
    (∀ c, convertOne (PyMsg.obj (convertOne m).1 c) = ((convertOne m).1, some c)) := by
  refine ⟨?_, ?_, ?_, ?_, ?_⟩
  · unfold convertOne
    split_ifs <;> rfl
  · intro r hr hvalid
    unfold convertOne
    rw [hr]
    rcases hvalid with h | h | h <;> subst h <;> simp
  · intro r hr hinvalid
    push_neg at hinvalid
    obtain ⟨h1, h2, h3⟩ := hinvalid
    unfold convertOne
    rw [hr]
    simp [h1, h2, h3]
  · intro hr
    unfold convertOne
    rw [hr]
    simp
  · intro c
    rcases convertOne_fst_mem m with h | h | h <;> rw [h] <;>
      simp [convertOne, getRole, getContent]

/-- Witness for C3: an unknown role maps to user keeping the content, a valid
role is kept. -/
theorem c3_witness :
    (convertOne (PyMsg.obj "robot" "hi")).1 = "user" ∧
    (convertOne (PyMsg.obj "robot" "hi")).2 = some "hi" ∧
    (convertOne (PyMsg.obj "system" "s")).1 = "system" := by
  refine ⟨?_, ?_, ?_⟩
  · exact (c3_role_normalization (PyMsg.obj "robot" "hi")).2.2.1 "robot" rfl (by decide)
  · exact (c3_role_normalization (PyMsg.obj "robot" "hi")).1
  · exact (c3_role_normalization (PyMsg.obj "system" "s")).2.1 "system" rfl (by decide)

/-- C4 (as stated, refuted): the claim says a provided model identifier is
returned exactly; but a model identifier provided as the empty string is
falsy under Python `or`, so the returned model field is the configured
default, not the provided identifier. -/
theorem c4_counterexample :
    (ChatController.chat sampleController [PyMsg.obj "user" "Hello!"] (some "")
        none sampleLLM).map ChatController.ChatResult.model =
      some "anthropic:claude-sonnet-4-5" ∧
    "anthropic:claude-sonnet-4-5" ≠ "" := by
  decide

/-- C4 (amended): a model identifier that is omitted, or provided as the
empty string, yields the configured default in the response's model field; a
provided non-empty identifier is returned exactly and is the identifier whose
resolved handle produced the response. -/
theorem c4_model_field (c : Controller) (msgs : List PyMsg) (temp : Option ℚ)
    (llmOf : String → ℚ → (List LCMessage → Message)) :
    (∀ r, ChatController.chat c msgs none temp llmOf = some r →
      r.model = c.default_model) ∧
    (∀ r, ChatController.chat c msgs (some "") temp llmOf = some r →
      r.model = c.default_model) ∧
    (∀ s r, s ≠ "" → ChatController.chat c msgs (some s) temp llmOf = some r →
      r.model = s ∧
      r.message = some ((llmOf s (ChatController.used_temperature c temp)
        ((convert_messages msgs).map ChatController.tupleToLC)).content)) := by
  refine ⟨?_, ?_, ?_⟩
  · intro r hr
    rw [chat_eq] at hr
    cases hr
    rfl
  · intro r hr
    rw [chat_eq] at hr
    cases hr
    rfl
  · intro s r hs hr
    rw [chat_eq] at hr
    cases hr
    simp [ChatController.used_model, hs]

/-- Witness for C4: a provided non-empty identifier comes back exactly, and a
provided empty identifier comes back as the configured default. -/
theorem c4_witness :
    (⟨some "Hello there", "openai:gpt-4o"⟩ : ChatController.ChatResult).model =
      "openai:gpt-4o" ∧
    (⟨some "Hello there", "anthropic:claude-sonnet-4-5"⟩ :
      ChatController.ChatResult).model = sampleController.default_model :=
  ⟨((c4_model_field sampleController [PyMsg.obj "user" "Hello!"] none sampleLLM).2.2
      "openai:gpt-4o" ⟨some "Hello there", "openai:gpt-4o"⟩ (by decide) (by decide)).1,
   (c4_model_field sampleController [PyMsg.obj "user" "Hello!"] none sampleLLM).2.1
      ⟨some "Hello there", "anthropic:claude-sonnet-4-5"⟩ (by decide)⟩

/-- C5 (confirmed, against the spec-modelled route): a successful single-shot
chat call yields a 200 response whose message is the content of the last
message of the history returned by the invoked graph and whose model field is
the resolved identifier actually used. -/
theorem c5_single_shot (c : Controller) (req : ChatRequest)
    (llmOf : String → ℚ → (List LCMessage → Message)) :
    ∃ hist resp,
      (ChatController.build_graph (llmOf (ChatController.used_model c req.model)
          (ChatController.used_temperature c req.temperature))).invoke
        ((convert_messages (req.messages.map (fun m => PyMsg.obj m.role m.content))).map
          ChatController.tupleToLC) = some hist ∧
      hist.getLast? = some (toLC resp) ∧
      chat_endpoint c req llmOf =
        HttpResult.ok ⟨resp.content, ChatController.used_model c req.model⟩ := by
  refine ⟨_, _, invoke_build_graph _ _, List.getLast?_concat _, ?_⟩
  simp [chat_endpoint, chat_eq]

/-- C6 (confirmed): the encoder's exact wire lines — tagged single-key JSON
payloads on a `data:` line for Token, Error and Metadata, the fixed sentinel
for Done, each encoded unit terminated by a blank line. -/
theorem c6_wire_format (tk msg : String) (payload : Json) :
    SSEFormatter.format_token tk =
      "data: " ++ "\x7b" ++ "\"token\"" ++ ": " ++ pyJsonStr tk ++ "\x7d" ++ "\n\n" ∧
    SSEFormatter.format_error msg =
      "data: " ++ "\x7b" ++ "\"error\"" ++ ": " ++ pyJsonStr msg ++ "\x7d" ++ "\n\n" ∧
    SSEFormatter.format_metadata payload =
      "data: " ++ "\x7b" ++ "\"metadata\"" ++ ": " ++ dumps payload ++ "\x7d" ++ "\n\n" ∧
    SSEFormatter.format_done = "data: [DONE]\n\n" ∧
    SSEFormatter.format_token "Hi" = "data: \x7b\"token\": \"Hi\"\x7d\n\n" ∧
    (∃ s, SSEFormatter.format_token tk = s ++ "\n\n") ∧
    (∃ s, SSEFormatter.format_error msg = s ++ "\n\n") ∧
    (∃ s, SSEFormatter.format_metadata payload = s ++ "\n\n") ∧
    (∃ s, SSEFormatter.format_done = s ++ "\n\n") := by
  refine ⟨?_, ?_, ?_, rfl, by decide, ⟨_, rfl⟩, ⟨_, rfl⟩, ⟨_, rfl⟩,
    ⟨"data: [DONE]", by decide⟩⟩
  · show "data: " ++ dumps (.obj [("token", .str tk)]) ++ "\n\n" = _
    simp only [dumps, dumpsObj, show pyJsonStr "token" = "\"token\"" from by decide,
      String.append_assoc]
  · show "data: " ++ dumps (.obj [("error", .str msg)]) ++ "\n\n" = _
    simp only [dumps, dumpsObj, show pyJsonStr "error" = "\"error\"" from by decide,
      String.append_assoc]
  · show "data: " ++ dumps (.obj [("metadata", payload)]) ++ "\n\n" = _
    simp only [dumps, dumpsObj, show pyJsonStr "metadata" = "\"metadata\"" from by decide,
      String.append_assoc]

/-- C7 (confirmed): invoking the built graph on a history of N messages
returns a history of exactly N+1 messages whose first N elements are the
input unchanged and in order, with the model's response appended. -/
theorem c7_graph_appends_one (llm : List LCMessage → Message)
    (input : List LCMessage) :
    ∃ hist, (ChatController.build_graph llm).invoke input = some hist ∧
      hist.length = input.length + 1 ∧
      hist.take input.length = input ∧
      hist.getLast? = some (toLC (llm input)) := by
  refine ⟨input ++ [toLC (llm input)], invoke_build_graph _ _, by simp,
    List.take_left input _, List.getLast?_concat _⟩

/-- C8 (confirmed): encoding a non-Done event with an absent payload yields
the empty string — no data line and no blank-line record separator. -/
theorem c8_none_payload (t : StreamEventType) (h : t ≠ .done) :
    SSEFormatter.format_event t none = "" := by
  unfold SSEFormatter.format_event
  rw [if_neg h]

/-- Witness for C8: a token event with absent payload. -/
theorem c8_witness : SSEFormatter.format_event .token none = "" :=
  c8_none_payload .token (by decide)

/-- C9 (confirmed): the two optional parameters use different absence tests —
an empty-string model identifier falls back to the configured default (which
is then returned), while temperature falls back only on None, so an explicit
temperature of 0 is passed to resolution as given. -/
theorem c9_absence_tests (c : Controller) (msgs : List PyMsg)
    (llmOf : String → ℚ → (List LCMessage → Message)) :
    ChatController.used_model c (some "") = c.default_model ∧
    ChatController.used_temperature c (some 0) = 0 ∧
    ChatController.used_temperature c none = c.default_temperature ∧
    (∀ r, ChatController.chat c msgs (some "") none llmOf = some r →
      r.model = c.default_model) ∧
    ChatController.chat c msgs none (some 0) llmOf =
      some ⟨some ((llmOf c.default_model 0
        ((convert_messages msgs).map ChatController.tupleToLC)).content),
        c.default_model⟩ := by
  refine ⟨rfl, rfl, rfl, ?_, ?_⟩
  · intro r hr
    rw [chat_eq] at hr
    cases hr
    rfl
  · rw [chat_eq]
    rfl

/-- Witness for C9: concrete call with empty model identifier. -/
theorem c9_witness :
    (⟨some "Hello there", "anthropic:claude-sonnet-4-5"⟩ :
      ChatController.ChatResult).model = "anthropic:claude-sonnet-4-5" :=
  (c9_absence_tests sampleController [PyMsg.obj "user" "Hello!"] sampleLLM).2.2.2.1
    ⟨some "Hello there", "anthropic:claude-sonnet-4-5"⟩ (by decide)

/-- C10 (confirmed): conversion is insensitive to the input shape — an object
with role/content attributes and a mapping with the same role/content entries
convert to the same tuple. -/
theorem c10_duck_typing (r c : String) :
    convertOne (PyMsg.obj r c) = convertOne (PyMsg.dict (some r) (some c)) := rfl

end ChatServer
